import Mathlib

/-!
Verification of the `breaker` package: a circuit breaker that keeps a
failure count against a threshold and offers a `Do` wrapper racing a unit
of work against a timer.

The embedding follows the current revision of the package
(`src/unnamed/part_001`):

* `Breaker` holds `threshold` and `failures`, both `uint64` fields in Go,
  modelled as natural numbers that the mutating operations reduce modulo
  `2 ^ 64` (`atomic.AddUint64` wraps on overflow).
* `NewBreaker`, `IsOpen`, `IsClosed`, `Trip`, `Reset` mirror the Go
  methods of the same names.  `IsOpen` and `IsClosed` are embedded as
  state transformers (`IsOpenOp`, `IsClosedOp`) built from the atomic
  loads `loadFailures` and `loadThreshold`, so that their freedom from
  side effects is a provable statement rather than an assumption.
* `Do` races a timer goroutine against a worker goroutine.  In the source
  both goroutines signal through a shared `sync.Once`: the timer sends on
  `timerChan` only if it wins the `Once`, the worker sends its error on
  `errChan` only if it wins the `Once` and the error is non-nil, and the
  main goroutine waits on the `WaitGroup` and then inspects the two
  buffered channels with a `select` that has a `default` branch.
  Consequently at most one channel ever holds a value, determined by the
  unique winner of the `Once`; the type `RaceWinner` records that winner
  and `Do` maps it to the state change, the returned error, and the trace
  of `Trip` / `Reset` calls performed (`effects`).
* Go `error` values are modelled by `Err`: the package sentinel
  `ErrTimeout` plus opaque operation errors `Err.opError n`; `nil` is
  `Option.none`.
-/

namespace BreakerLib

/-- Modulus of the Go `uint64` type. -/
def U64 : Nat := 2 ^ 64

/-- The `Breaker` struct: `threshold uint64` and `failures uint64`.
The `sync.RWMutex` field carries no data and is not part of the state. -/
structure Breaker where
  threshold : Nat
  failures : Nat
deriving DecidableEq, Repr

/-- Embedding of `NewBreaker`: threshold as given (reduced to its
`uint64` value), failure count zero. -/
def NewBreaker (threshold : Nat) : Breaker :=
  { threshold := threshold % U64, failures := 0 }

/-- Embedding of the atomic load `loadFailures`: returns the current
failure count and performs no store, so the state comes back unchanged. -/
def loadFailures (b : Breaker) : Nat × Breaker :=
  (b.failures, b)

/-- Embedding of the atomic load `loadThreshold`. -/
def loadThreshold (b : Breaker) : Nat × Breaker :=
  (b.threshold, b)

/-- Embedding of the method `IsOpen` as a state transformer: two atomic
loads, then the comparison `failures >= threshold`. -/
def IsOpenOp (b : Breaker) : Bool × Breaker :=
  let p := loadFailures b
  let q := loadThreshold p.2
  (decide (p.1 ≥ q.1), q.2)

/-- Embedding of the method `IsClosed` as a state transformer: two atomic
loads, then the comparison `failures < threshold`. -/
def IsClosedOp (b : Breaker) : Bool × Breaker :=
  let p := loadFailures b
  let q := loadThreshold p.2
  (decide (p.1 < q.1), q.2)

/-- Value returned by `IsOpen`. -/
def IsOpen (b : Breaker) : Bool := (IsOpenOp b).1

/-- Value returned by `IsClosed`. -/
def IsClosed (b : Breaker) : Bool := (IsClosedOp b).1

/-- Embedding of `Trip`: `atomic.AddUint64(&b.failures, 1)`, which wraps
modulo `2 ^ 64`. -/
def Trip (b : Breaker) : Breaker :=
  { b with failures := (b.failures + 1) % U64 }

/-- Embedding of `Reset`: `atomic.StoreUint64(&b.failures, 0)`. -/
def Reset (b : Breaker) : Breaker :=
  { b with failures := 0 }

/-- Go `error` values seen by the package: the sentinel timeout error and
opaque errors produced by the wrapped operation. -/
inductive Err where
  | errTimeout : Err
  | opError (code : Nat) : Err
deriving DecidableEq, Repr

/-- The package-level sentinel `ErrTimeout`. -/
def ErrTimeout : Err := Err.errTimeout

/-- Winner of the race inside `Do`, i.e. which goroutine runs the body of
the shared `sync.Once`: the timer, or the worker carrying the result of
`f()` (`none` for a nil error). -/
inductive RaceWinner where
  | timer : RaceWinner
  | worker (err : Option Err) : RaceWinner
deriving DecidableEq, Repr

/-- The worker result carried by a race winner, if any. -/
def workerErr : RaceWinner → Option Err
  | RaceWinner.timer => none
  | RaceWinner.worker e => e

/-- Observable side effects on the breaker state. -/
inductive Effect where
  | trip : Effect
  | reset : Effect
deriving DecidableEq, Repr

/-- Result of a call to `Do`: the final breaker state, the returned
error, and the trace of `Trip` / `Reset` calls performed. -/
structure DoResult where
  breaker : Breaker
  ret : Option Err
  effects : List Effect
deriving DecidableEq, Repr

/-- Embedding of `Do` after the `done.Wait()`: the `select` sees a value
on `timerChan` exactly when the timer won the `Once`, a value on
`errChan` exactly when the worker won with a non-nil error, and takes the
`default` branch (returning nil, touching nothing) when the worker won
with a nil error. -/
def Do (b : Breaker) (w : RaceWinner) : DoResult :=
  match w with
  | RaceWinner.timer =>
      { breaker := Trip b, ret := some ErrTimeout, effects := [Effect.trip] }
  | RaceWinner.worker (some e) =>
      { breaker := Trip b, ret := some e, effects := [Effect.trip] }
  | RaceWinner.worker none =>
      { breaker := b, ret := none, effects := [] }

/-- Direct state mutators of the public API. -/
inductive Op where
  | trip : Op
  | reset : Op
deriving DecidableEq, Repr

/-- Apply one mutator. -/
def applyOp (op : Op) (b : Breaker) : Breaker :=
  match op with
  | Op.trip => Trip b
  | Op.reset => Reset b

/-- Apply a sequence of mutators, oldest first. -/
def applyOps (ops : List Op) (b : Breaker) : Breaker :=
  match ops with
  | [] => b
  | op :: rest => applyOps rest (applyOp op b)

/-- Iterate `Trip` a given number of times. -/
def tripN (k : Nat) (b : Breaker) : Breaker :=
  match k with
  | 0 => b
  | k + 1 => Trip (tripN k b)

/-- Execute a complete interleaving of concurrent `Trip` calls: each
call is a single atomic read-modify-write instruction, so an interleaved
execution is fully described by the order in which the calls hit memory;
the schedule lists the thread identifiers in that order. -/
def execTrips (schedule : List Nat) (b : Breaker) : Breaker :=
  match schedule with
  | [] => b
  | _ :: rest => execTrips rest (Trip b)

theorem U64_pos : 0 < U64 := by decide

theorem Trip_threshold (b : Breaker) : (Trip b).threshold = b.threshold := rfl

theorem Trip_failures (b : Breaker) :
    (Trip b).failures = (b.failures + 1) % U64 := rfl

theorem Trip_failures_lt (b : Breaker) : (Trip b).failures < U64 :=
  Nat.mod_lt _ U64_pos

theorem Reset_threshold (b : Breaker) : (Reset b).threshold = b.threshold := rfl

theorem applyOp_threshold (op : Op) (b : Breaker) :
    (applyOp op b).threshold = b.threshold := by
  cases op <;> rfl

theorem applyOps_threshold (ops : List Op) (b : Breaker) :
    (applyOps ops b).threshold = b.threshold := by
  induction ops generalizing b with
  | nil => rfl
  | cons op rest ih => rw [applyOps, ih, applyOp_threshold]

theorem tripN_threshold (k : Nat) (b : Breaker) :
    (tripN k b).threshold = b.threshold := by
  induction k with
  | zero => rfl
  | succ k ih => rw [tripN, Trip_threshold, ih]

theorem tripN_failures (k : Nat) (b : Breaker) (hb : b.failures < U64) :
    (tripN k b).failures = (b.failures + k) % U64 := by
  induction k with
  | zero => exact (Nat.mod_eq_of_lt hb).symm
  | succ k ih =>
      rw [tripN, Trip_failures, ih, Nat.mod_add_mod]
      rw [Nat.add_assoc]

theorem execTrips_threshold (s : List Nat) (b : Breaker) :
    (execTrips s b).threshold = b.threshold := by
  induction s generalizing b with
  | nil => rfl
  | cons x rest ih => rw [execTrips, ih, Trip_threshold]

theorem execTrips_failures (s : List Nat) (b : Breaker) (hb : b.failures < U64) :
    (execTrips s b).failures = (b.failures + s.length) % U64 := by
  induction s generalizing b with
  | nil => exact (Nat.mod_eq_of_lt hb).symm
  | cons x rest ih =>
      rw [execTrips, ih (Trip b) (Trip_failures_lt b), Trip_failures,
        Nat.mod_add_mod, List.length_cons]
      rw [Nat.add_assoc, Nat.add_comm 1 rest.length]

theorem NewBreaker_failures (t : Nat) : (NewBreaker t).failures = 0 := rfl

theorem NewBreaker_threshold (t : Nat) (ht : t < U64) :
    (NewBreaker t).threshold = t :=
  Nat.mod_eq_of_lt ht

theorem IsOpen_eq (b : Breaker) :
    IsOpen b = decide (b.failures ≥ b.threshold) := rfl

theorem IsClosed_eq (b : Breaker) :
    IsClosed b = decide (b.failures < b.threshold) := rfl

/-- C1 counterexample: a breaker at threshold 5 with three accumulated
failures, whose worker wins the race with a nil error.  `Do` returns no
error, but the failure count stays at 3 instead of being reset to 0: the
success path of the current `Do` never calls `Reset`. -/
theorem C1_counterexample :
    (Do (tripN 3 (NewBreaker 5)) (RaceWinner.worker none)).ret = none ∧
    (Do (tripN 3 (NewBreaker 5)) (RaceWinner.worker none)).breaker.failures = 3 ∧
    (3 : Nat) ≠ 0 := by
  refine ⟨rfl, ?_, by decide⟩
  decide

/-- C1 amended: if the worker wins the race with a nil error, `Do`
returns no error and leaves the breaker completely unchanged (no
`Reset`, no `Trip`). -/
theorem C1_amended_success_leaves_breaker_unchanged (b : Breaker) :
    (Do b (RaceWinner.worker none)).ret = none ∧
    (Do b (RaceWinner.worker none)).breaker = b ∧
    (Do b (RaceWinner.worker none)).effects = [] :=
  ⟨rfl, rfl, rfl⟩

/-- C2 counterexample: a call to `Do` in which the worker wins with a nil
error performs zero side effects on the breaker, not exactly one. -/
theorem C2_counterexample :
    (Do (NewBreaker 1) (RaceWinner.worker none)).effects = [] ∧
    (Do (NewBreaker 1) (RaceWinner.worker none)).effects.length = 0 :=
  ⟨rfl, rfl⟩

/-- C2 amended: every call to `Do` performs at most one side effect and
never a `Reset`: exactly one `Trip` when the timer wins or the worker
wins with a non-nil error, and no side effect at all when the worker
wins with a nil error. -/
theorem C2_amended_at_most_one_effect (b : Breaker) (w : RaceWinner) :
    (Do b w).effects.length ≤ 1 ∧
    Effect.reset ∉ (Do b w).effects ∧
    ((Do b w).effects = [Effect.trip] ↔ w ≠ RaceWinner.worker none) ∧
    ((Do b w).effects = [] ↔ w = RaceWinner.worker none) := by
  cases w with
  | timer => simp [Do]
  | worker e => cases e <;> simp [Do]

/-- C3 confirmed: provided the wrapped operation does not itself return
the sentinel (the sentinel is a distinct value, distinguishable by
identity from every operation error), `Do` returns `ErrTimeout` exactly
when the timer wins the race, and in that case the breaker is tripped
(one `Trip`, failure count bumped modulo `2 ^ 64`). -/
theorem C3_timeout_sentinel (b : Breaker) (w : RaceWinner)
    (h : workerErr w ≠ some Err.errTimeout) :
    ((Do b w).ret = some ErrTimeout ↔ w = RaceWinner.timer) ∧
    (w = RaceWinner.timer →
      (Do b w).effects = [Effect.trip] ∧
      (Do b w).breaker.failures = (b.failures + 1) % U64) ∧
    (∀ n : Nat, Err.opError n ≠ ErrTimeout) := by
  refine ⟨?_, ?_, by intro n hn; cases hn⟩
  · cases w with
    | timer => simp [Do, ErrTimeout]
    | worker e =>
        cases e with
        | none => simp [Do]
        | some err =>
            simp only [workerErr, ne_eq, Option.some.injEq] at h
            simp [Do, ErrTimeout, h]
  · intro hw
    subst hw
    exact ⟨rfl, rfl⟩

/-- C3 witness: the timer wins on a fresh breaker with threshold 1. -/
theorem C3_witness :
    workerErr RaceWinner.timer ≠ some Err.errTimeout ∧
    ((Do (NewBreaker 1) RaceWinner.timer).ret = some ErrTimeout ↔
      RaceWinner.timer = RaceWinner.timer) :=
  ⟨by decide, (C3_timeout_sentinel (NewBreaker 1) RaceWinner.timer (by decide)).1⟩

/-- C4 counterexample: at a failure count of `2 ^ 64 - 1` (the maximal
`uint64` value), a worker loss with a non-nil error still returns that
error verbatim, but the `Trip` wraps the counter to 0 instead of
increasing it by exactly 1. -/
theorem C4_counterexample :
    (Do { threshold := 1, failures := 2 ^ 64 - 1 }
      (RaceWinner.worker (some (Err.opError 0)))).ret = some (Err.opError 0) ∧
    (Do { threshold := 1, failures := 2 ^ 64 - 1 }
      (RaceWinner.worker (some (Err.opError 0)))).breaker.failures = 0 ∧
    (0 : Nat) ≠ 2 ^ 64 - 1 + 1 := by
  refine ⟨rfl, ?_, by decide⟩
  decide

/-- C4 amended: whenever the failure count is below `2 ^ 64 - 1`, a
worker win with a non-nil error `e` trips the breaker exactly once
(failure count increases by exactly 1, threshold untouched) and `Do`
returns exactly `e`. -/
theorem C4_amended_worker_error_trips (b : Breaker) (e : Err)
    (h : b.failures < U64 - 1) :
    (Do b (RaceWinner.worker (some e))).ret = some e ∧
    (Do b (RaceWinner.worker (some e))).effects = [Effect.trip] ∧
    (Do b (RaceWinner.worker (some e))).breaker.failures = b.failures + 1 ∧
    (Do b (RaceWinner.worker (some e))).breaker.threshold = b.threshold := by
  refine ⟨rfl, rfl, ?_, rfl⟩
  show (b.failures + 1) % U64 = b.failures + 1
  have hU : 1 ≤ U64 := by decide
  exact Nat.mod_eq_of_lt (by omega)

/-- C4 witness: a fresh breaker with threshold 1 and a concrete
operation error. -/
theorem C4_witness :
    (NewBreaker 1).failures < U64 - 1 ∧
    (Do (NewBreaker 1) (RaceWinner.worker (some (Err.opError 7)))).ret =
      some (Err.opError 7) ∧
    (Do (NewBreaker 1) (RaceWinner.worker (some (Err.opError 7)))).breaker.failures =
      (NewBreaker 1).failures + 1 :=
  ⟨by decide,
    (C4_amended_worker_error_trips (NewBreaker 1) (Err.opError 7) (by decide)).1,
    (C4_amended_worker_error_trips (NewBreaker 1) (Err.opError 7) (by decide)).2.2.1⟩

/-- C5 counterexample: with threshold 1, after `2 ^ 64` sequential
`Trip` calls the counter has wrapped to 0, so `IsOpen` is `false` even
though the number of calls is at least the threshold. -/
theorem C5_counterexample :
    IsOpen (tripN (2 ^ 64) (NewBreaker 1)) = false ∧ 1 ≤ 2 ^ 64 := by
  constructor
  · have hf : (tripN (2 ^ 64) (NewBreaker 1)).failures = 0 := by
      rw [tripN_failures (2 ^ 64) (NewBreaker 1) (by decide), NewBreaker_failures]
      show (0 + 2 ^ 64) % U64 = 0
      rw [Nat.zero_add]
      exact Nat.mod_self U64
    have ht : (tripN (2 ^ 64) (NewBreaker 1)).threshold = 1 := by
      rw [tripN_threshold]
      exact NewBreaker_threshold 1 (by decide)
    rw [IsOpen_eq, hf, ht]
    decide
  · decide

/-- C5 amended: for every threshold `t` and count `k` below `2 ^ 64`, a
fresh breaker has failure count 0, and after exactly `k` sequential
`Trip` calls `IsOpen` holds exactly when `k ≥ t` and `IsClosed` exactly
when `k < t`. -/
theorem C5_amended_threshold_boundary (t k : Nat) (ht : t < U64) (hk : k < U64) :
    (NewBreaker t).failures = 0 ∧
    (IsOpen (tripN k (NewBreaker t)) = true ↔ t ≤ k) ∧
    (IsClosed (tripN k (NewBreaker t)) = true ↔ k < t) := by
  have hf : (tripN k (NewBreaker t)).failures = k := by
    rw [tripN_failures k (NewBreaker t)
        (by rw [NewBreaker_failures]; exact U64_pos),
      NewBreaker_failures, Nat.zero_add]
    exact Nat.mod_eq_of_lt hk
  have hth : (tripN k (NewBreaker t)).threshold = t := by
    rw [tripN_threshold]
    exact NewBreaker_threshold t ht
  refine ⟨rfl, ?_, ?_⟩
  · rw [IsOpen_eq, hf, hth]
    simp [ge_iff_le]
  · rw [IsClosed_eq, hf, hth]
    simp

/-- C5 witness: threshold 2, three trips: open and not closed; the fresh
breaker has failure count 0. -/
theorem C5_witness :
    2 < U64 ∧ 3 < U64 ∧
    (NewBreaker 2).failures = 0 ∧
    (IsOpen (tripN 3 (NewBreaker 2)) = true ↔ 2 ≤ 3) ∧
    (IsClosed (tripN 3 (NewBreaker 2)) = true ↔ 3 < 2) :=
  ⟨by decide, by decide,
    (C5_amended_threshold_boundary 2 3 (by decide) (by decide)).1,
    (C5_amended_threshold_boundary 2 3 (by decide) (by decide)).2.1,
    (C5_amended_threshold_boundary 2 3 (by decide) (by decide)).2.2⟩

/-- C6 confirmed: a breaker built with threshold 0 is open and not
closed after every sequence of `Trip` / `Reset` operations, including
the empty sequence (immediately after construction) and sequences ending
in `Reset`. -/
theorem C6_zero_threshold_permanently_open (ops : List Op) :
    IsOpen (applyOps ops (NewBreaker 0)) = true ∧
    IsClosed (applyOps ops (NewBreaker 0)) = false := by
  have ht : (applyOps ops (NewBreaker 0)).threshold = 0 := by
    rw [applyOps_threshold]
    rfl
  constructor
  · rw [IsOpen_eq, ht]
    simp
  · rw [IsClosed_eq, ht]
    simp

/-- C7 counterexample: starting from failure count `2 ^ 64 - 1` a single
`Trip` call wraps the counter to 0, a strict decrease not caused by
`Reset`, and a change of far more than 1. -/
theorem C7_counterexample :
    (Trip { threshold := 0, failures := 2 ^ 64 - 1 }).failures = 0 ∧
    ¬ 2 ^ 64 - 1 ≤ (Trip { threshold := 0, failures := 2 ^ 64 - 1 }).failures := by
  constructor
  · decide
  · intro hle
    have h0 : (Trip { threshold := 0, failures := 2 ^ 64 - 1 }).failures = 0 := by
      decide
    rw [h0] at hle
    exact absurd hle (by decide)

/-- C7 amended: for every breaker whose failure count is below
`2 ^ 64 - 1`, a single `Trip` increments the count by exactly 1, and no
operation other than `Reset` decreases the count. -/
theorem C7_amended_trip_increments (b : Breaker) (h : b.failures < U64 - 1) :
    (Trip b).failures = b.failures + 1 ∧
    (∀ op : Op, op ≠ Op.reset → b.failures ≤ (applyOp op b).failures) := by
  have hU : 1 ≤ U64 := by decide
  have h1 : (Trip b).failures = b.failures + 1 := by
    rw [Trip_failures]
    exact Nat.mod_eq_of_lt (by omega)
  refine ⟨h1, ?_⟩
  intro op hop
  cases op with
  | trip =>
      rw [applyOp, h1]
      exact Nat.le_succ _
  | reset => exact absurd rfl hop

/-- C7 witness: a breaker with five failures gains exactly one more on
`Trip`, and `Trip` does not decrease the count. -/
theorem C7_witness :
    ({ threshold := 3, failures := 5 } : Breaker).failures < U64 - 1 ∧
    (Trip { threshold := 3, failures := 5 }).failures =
      ({ threshold := 3, failures := 5 } : Breaker).failures + 1 :=
  ⟨by decide, (C7_amended_trip_increments { threshold := 3, failures := 5 } (by decide)).1⟩

/-- C8 counterexample: a complete interleaving of `2 ^ 64` concurrent
`Trip` calls (one per thread identifier in the schedule) on a fresh
breaker leaves the failure count at 0, an increase of 0 rather than of
`2 ^ 64`. -/
theorem C8_counterexample :
    List.Perm (List.range (2 ^ 64)) (List.range (2 ^ 64)) ∧
    (execTrips (List.range (2 ^ 64)) (NewBreaker 1)).failures = 0 ∧
    (NewBreaker 1).failures + 2 ^ 64 ≠ 0 := by
  refine ⟨List.Perm.refl _, ?_, by decide⟩
  rw [execTrips_failures (List.range (2 ^ 64)) (NewBreaker 1) (by decide),
    NewBreaker_failures, List.length_range, Nat.zero_add]
  exact Nat.mod_self _

/-- C8 amended: every complete interleaving of `N` concurrent `Trip`
calls (a schedule that is a permutation of the `N` thread identifiers)
increases the failure count by exactly `N` whenever the resulting count
stays below `2 ^ 64`, and never touches the threshold: each call is a
single atomic read-modify-write, so no update is lost in any order. -/
theorem C8_amended_concurrent_trips (N : Nat) (s : List Nat) (b : Breaker)
    (hs : List.Perm s (List.range N)) (h : b.failures + N < U64) :
    (execTrips s b).failures = b.failures + N ∧
    (execTrips s b).threshold = b.threshold := by
  have hlen : s.length = N := by
    rw [List.Perm.length_eq hs, List.length_range]
  constructor
  · rw [execTrips_failures s b (by omega), hlen]
    exact Nat.mod_eq_of_lt h
  · exact execTrips_threshold s b

/-- C8 witness: two threads, scheduled second thread first, on a fresh
breaker with threshold 10: the count ends at exactly 2. -/
theorem C8_witness :
    List.Perm [1, 0] (List.range 2) ∧
    (NewBreaker 10).failures + 2 < U64 ∧
    (execTrips [1, 0] (NewBreaker 10)).failures = (NewBreaker 10).failures + 2 :=
  ⟨by decide, by decide,
    (C8_amended_concurrent_trips 2 [1, 0] (NewBreaker 10) (by decide) (by decide)).1⟩

/-- C9 confirmed: on every breaker state, `IsClosed` is the boolean
negation of `IsOpen`: exactly one of the two holds, they are mutually
exclusive, and there is no third state. -/
theorem C9_closed_is_negation_of_open (b : Breaker) :
    IsClosed b = !IsOpen b ∧
    (IsOpen b = true ∨ IsClosed b = true) ∧
    ¬ (IsOpen b = true ∧ IsClosed b = true) := by
  rcases Nat.lt_or_ge b.failures b.threshold with h | h
  · have hno : ¬ b.failures ≥ b.threshold := Nat.not_le.mpr h
    rw [IsOpen_eq, IsClosed_eq]
    simp [h, hno]
  · have hnc : ¬ b.failures < b.threshold := Nat.not_lt.mpr h
    rw [IsOpen_eq, IsClosed_eq]
    simp [h, hnc]

/-- C10 confirmed: `IsOpen` and `IsClosed` are pure queries: a single
call returns the state unchanged, and so does any number of repeated
calls; in particular both the failure count and the threshold are left
intact. -/
theorem C10_queries_are_pure (b : Breaker) (n : Nat) :
    (IsOpenOp b).2 = b ∧ (IsClosedOp b).2 = b ∧
    (IsOpenOp b).2.failures = b.failures ∧
    (IsOpenOp b).2.threshold = b.threshold ∧
    (IsClosedOp b).2.failures = b.failures ∧
    (IsClosedOp b).2.threshold = b.threshold ∧
    (fun s => (IsOpenOp s).2)^[n] b = b ∧
    (fun s => (IsClosedOp s).2)^[n] b = b := by
  refine ⟨rfl, rfl, rfl, rfl, rfl, rfl, ?_, ?_⟩
  · exact Function.iterate_fixed rfl n
  · exact Function.iterate_fixed rfl n

end BreakerLib
